import Mathlib

/-!
Verification of the data-transform pipeline of `zeroclickapp.py` (the
GSC zero-click keywords tool): row normalization (`fetch_gsc_data`),
metric derivation (`calculate_zero_click_metrics`), threshold filtering
with descending sort (`identify_zero_click_keywords`), and chart shaping
(`create_visualizations`).

DataFrames are embedded as Lean lists of records; integer counts are `ℤ`
and the floating-point columns (`CTR`, `Position`, `Zero_Click_Score`)
are `ℚ`, with the arithmetic of the source carried over literally.
The `sort_values` call uses the pandas default `kind='quicksort'`, which
guarantees no order among equal sort keys, so next to the executable
model (which fixes one admissible tie order) the relation
`IdentifyAdmissible` captures exactly what the documented sort contract
guarantees, and tie-order properties are settled against the relation.
-/

namespace ZeroClick

/-- The `Query` column value: `row['keys'][0]` when exactly the single
dimension `query` was requested, otherwise the whole `row['keys']` list. -/
inductive QueryField where
  | single (q : String)
  | multi (ks : List String)
deriving Repr, DecidableEq

/-- One raw row of the GSC API response: dimension values `keys`,
`clicks`, `impressions`, `ctr` (a fraction in `[0,1]`), `position`. -/
structure GscRow where
  keys : List String
  clicks : ℤ
  impressions : ℤ
  ctr : ℚ
  position : ℚ
deriving Repr, DecidableEq

/-- One row of the DataFrame built by `fetch_gsc_data`
(columns `Query`, `Clicks`, `Impressions`, `CTR`, `Position`). -/
structure KeywordRecord where
  query : QueryField
  clicks : ℤ
  impressions : ℤ
  ctr : ℚ
  position : ℚ
deriving Repr, DecidableEq

/-- A row after `calculate_zero_click_metrics` has added the
`Zero_Click_Score` column. -/
structure ScoredRecord where
  query : QueryField
  clicks : ℤ
  impressions : ℤ
  ctr : ℚ
  position : ℚ
  zero_click_score : ℚ
deriving Repr, DecidableEq

/-- The per-row normalization inside `fetch_gsc_data` (lines 169-177):
`Query` is `row['keys'][0]` if `dimensions == ['query']` else `row['keys']`,
and `CTR` is `row['ctr'] * 100`.  (`keys.headD ""` stands for the Python
indexing `keys[0]`; the API always supplies one key per dimension.) -/
def normalizeRow (dimensions : List String) (row : GscRow) : KeywordRecord where
  query :=
    if dimensions = ["query"] then QueryField.single (row.keys.headD "")
    else QueryField.multi row.keys
  clicks := row.clicks
  impressions := row.impressions
  ctr := row.ctr * 100
  position := row.position

/-- `fetch_gsc_data` row handling: a response without a `rows` key
(modelled as `none`) yields an empty DataFrame (line 164-166); otherwise
each raw row is normalized in order (lines 169-180). -/
def fetch_gsc_data (dimensions : List String) (rows : Option (List GscRow)) :
    List KeywordRecord :=
  match rows with
  | none => []
  | some rs => rs.map (normalizeRow dimensions)

/-- The `np.where` expression of lines 192-194:
`(Impressions - Clicks) / Impressions * 100` when `Impressions > 0`, else `0`. -/
def zeroClickScore (clicks impressions : ℤ) : ℚ :=
  if 0 < impressions then
    ((impressions : ℚ) - (clicks : ℚ)) / (impressions : ℚ) * 100
  else 0

/-- Attach the derived `Zero_Click_Score` column to one record. -/
def scoreRecord (r : KeywordRecord) : ScoredRecord where
  query := r.query
  clicks := r.clicks
  impressions := r.impressions
  ctr := r.ctr
  position := r.position
  zero_click_score := zeroClickScore r.clicks r.impressions

/-- `calculate_zero_click_metrics` (lines 186-196): an empty DataFrame is
returned as is, otherwise `Zero_Click_Score` is computed row-wise. -/
def calculate_zero_click_metrics (df : List KeywordRecord) : List ScoredRecord :=
  if df.isEmpty then []
  else df.map scoreRecord

/-- The boolean mask of lines 203-207: `Impressions >= min_impressions`
and `CTR <= max_ctr` and `Zero_Click_Score >= min_zero_click_score`. -/
def passes (min_impressions : ℤ) (max_ctr min_zero_click_score : ℚ)
    (r : ScoredRecord) : Bool :=
  decide (min_impressions ≤ r.impressions) && decide (r.ctr ≤ max_ctr) &&
    decide (min_zero_click_score ≤ r.zero_click_score)

/-- Comparator of `sort_values('Zero_Click_Score', ascending=False)`:
`a` may come before `b` iff `a`'s score is at least `b`'s. -/
def scoreDescLE (a b : ScoredRecord) : Bool :=
  decide (b.zero_click_score ≤ a.zero_click_score)

/-- `identify_zero_click_keywords` (lines 198-209): an empty DataFrame is
returned as is; otherwise the rows satisfying the mask are selected,
copied, and sorted by `Zero_Click_Score` descending.  The `sort_values`
call uses the pandas default `kind='quicksort'`, which fixes no order
among equal scores; this executable model fixes one admissible tie order
(that of `List.mergeSort`), and `IdentifyAdmissible` below states the
contract every admissible tie order satisfies. -/
def identify_zero_click_keywords (df : List ScoredRecord)
    (min_impressions : ℤ) (max_ctr min_zero_click_score : ℚ) :
    List ScoredRecord :=
  if df.isEmpty then df
  else
    (df.filter (passes min_impressions max_ctr min_zero_click_score)).mergeSort
      scoreDescLE

/-- The input-output contract of `identify_zero_click_keywords` when
`sort_values('Zero_Click_Score', ascending=False)` is read by its
documented contract: the pandas default `kind='quicksort'` is not a
stable sort, so a run may return any reordering of the mask-selected
rows that is non-increasing in `Zero_Click_Score`. -/
def IdentifyAdmissible (df : List ScoredRecord) (min_impressions : ℤ)
    (max_ctr min_zero_click_score : ℚ) (out : List ScoredRecord) : Prop :=
  out.Perm (df.filter (passes min_impressions max_ctr min_zero_click_score)) ∧
    out.Pairwise (fun a b => b.zero_click_score ≤ a.zero_click_score)

/-- One point of the scatter view (`fig1`): `Impressions` on x, `CTR` on y,
`Query` as hover label. -/
structure ScatterPoint where
  impressions : ℤ
  ctr : ℚ
  query : QueryField
deriving Repr, DecidableEq

/-- `create_visualizations` (lines 211-239): on an empty derived set all
three views are `none`; otherwise the scatter view pairs impressions with
CTR over the full set, the distribution view lists every score of the full
set, and the top-N view is `head(20)` of the filtered set — `none` when
the filtered set is empty. -/
def create_visualizations (df : List ScoredRecord)
    (zero_click_df : List ScoredRecord) :
    Option (List ScatterPoint) × Option (List ℚ) × Option (List ScoredRecord) :=
  if df.isEmpty then (none, none, none)
  else
    (some (df.map fun r => ⟨r.impressions, r.ctr, r.query⟩),
     some (df.map fun r => r.zero_click_score),
     if zero_click_df.isEmpty then none else some (zero_click_df.take 20))

/-- Boolean-mask selection `df[mask]` as a state step: it builds a new
frame and leaves its receiver unchanged, returned as the second component. -/
def dfBoolMask (df : List ScoredRecord) (p : ScoredRecord → Bool) :
    List ScoredRecord × List ScoredRecord :=
  (df.filter p, df)

/-- `.copy()` as a state step: a fresh equal frame, receiver unchanged. -/
def dfCopy (df : List ScoredRecord) : List ScoredRecord × List ScoredRecord :=
  (df, df)

/-- `sort_values(..., ascending=False)` with the default `inplace=False`
as a state step: a new sorted frame, receiver unchanged.  (As in the
executable model above, one admissible tie order is fixed; the frame
claim below depends only on the untouched receiver.) -/
def dfSortValuesDesc (df : List ScoredRecord) :
    List ScoredRecord × List ScoredRecord :=
  (df.mergeSort scoreDescLE, df)

/-- `identify_zero_click_keywords` with the effect on the caller's `df`
made explicit: the result is the first component, and the value the
caller's `df` binding holds after the call is the second, threaded through
the pandas operations the body performs. -/
def identify_zero_click_keywords_effect (df : List ScoredRecord)
    (min_impressions : ℤ) (max_ctr min_zero_click_score : ℚ) :
    List ScoredRecord × List ScoredRecord :=
  if df.isEmpty then (df, df)
  else
    let m := dfBoolMask df (passes min_impressions max_ctr min_zero_click_score)
    let c := dfCopy m.1
    let s := dfSortValuesDesc c.1
    (s.1, m.2)

/-- The descending-score comparator is transitive. -/
theorem scoreDescLE_trans :
    ∀ a b c : ScoredRecord, scoreDescLE a b = true → scoreDescLE b c = true →
      scoreDescLE a c = true := by
  intro a b c h1 h2
  simp only [scoreDescLE, decide_eq_true_eq] at h1 h2 ⊢
  exact le_trans h2 h1

/-- The descending-score comparator is total. -/
theorem scoreDescLE_total :
    ∀ a b : ScoredRecord, (scoreDescLE a b || scoreDescLE b a) = true := by
  intro a b
  simp only [scoreDescLE, Bool.or_eq_true, decide_eq_true_eq]
  exact le_total b.zero_click_score a.zero_click_score

/-- The empty-DataFrame early return of `identify_zero_click_keywords`
coincides with filtering and sorting, so the body is mask-then-sort in
every case. -/
theorem identify_eq (df : List ScoredRecord) (mi : ℤ) (mc ms : ℚ) :
    identify_zero_click_keywords df mi mc ms =
      (df.filter (passes mi mc ms)).mergeSort scoreDescLE := by
  cases df with
  | nil => simp [identify_zero_click_keywords]
  | cons a l => rfl

/-- A record is in the filter output iff it is in the input and satisfies
all three threshold conditions. -/
theorem mem_identify (df : List ScoredRecord) (mi : ℤ) (mc ms : ℚ)
    (r : ScoredRecord) :
    r ∈ identify_zero_click_keywords df mi mc ms ↔
      r ∈ df ∧ mi ≤ r.impressions ∧ r.ctr ≤ mc ∧ ms ≤ r.zero_click_score := by
  rw [identify_eq, List.mem_mergeSort, List.mem_filter]
  simp [passes, and_assoc]

/-- The filter output is pairwise non-increasing in `Zero_Click_Score`. -/
theorem identify_pairwise (df : List ScoredRecord) (mi : ℤ) (mc ms : ℚ) :
    (identify_zero_click_keywords df mi mc ms).Pairwise
      (fun a b => b.zero_click_score ≤ a.zero_click_score) := by
  rw [identify_eq]
  exact (List.sorted_mergeSort scoreDescLE_trans scoreDescLE_total
    (df.filter (passes mi mc ms))).imp
    (fun hab => by simpa [scoreDescLE] using hab)

/-- The executable model is one admissible behavior of the documented
sort contract: its output is a descending reordering of the masked rows. -/
theorem identify_refines_admissible (df : List ScoredRecord) (mi : ℤ)
    (mc ms : ℚ) :
    IdentifyAdmissible df mi mc ms (identify_zero_click_keywords df mi mc ms) := by
  constructor
  · rw [identify_eq]
    exact List.mergeSort_perm _ _
  · exact identify_pairwise df mi mc ms

/-- Scenario A record: 1000 impressions, 10 clicks, CTR already 1%. -/
def rScenA : KeywordRecord :=
  ⟨QueryField.single "a", 10, 1000, 1, 1⟩

/-- Scenario B record: 0 impressions, 0 clicks. -/
def rScenB : KeywordRecord :=
  ⟨QueryField.single "b", 0, 0, 0, 1⟩

/-- A scored record passing generous thresholds, for concrete checks. -/
def rPos : ScoredRecord :=
  ⟨QueryField.single "w", 10, 1000, 1, 1, 99⟩

/-- A scored record whose score is the one derived from 2 clicks over
1 impression, violating the `clicks ≤ impressions` assumption. -/
def rNeg : ScoredRecord :=
  ⟨QueryField.single "x", 2, 1, 200, 1, -100⟩

/-- A raw row with the single requested dimension `query`. -/
def rowQ : GscRow :=
  ⟨["pizza"], 10, 1000, 1 / 100, 2⟩

/-- First of two distinct records carrying the same score of 50, both
passing the thresholds 0, 100, 0. -/
def rT1 : ScoredRecord :=
  ⟨QueryField.single "t1", 50, 100, 50, 1, 50⟩

/-- Second record tied with `rT1` at score 50. -/
def rT2 : ScoredRecord :=
  ⟨QueryField.single "t2", 50, 100, 50, 1, 50⟩

/-- The tie-reversing output on `[rT1, rT2]` is admissible for the
documented sort contract: both records pass the mask and the reversed
pair is still non-increasing in score. -/
theorem admissible_swap_pair :
    IdentifyAdmissible [rT1, rT2] 0 100 0 [rT2, rT1] := by
  have hf : List.filter (passes 0 100 0) [rT1, rT2] = [rT1, rT2] := by decide
  constructor
  · rw [hf]
    exact List.Perm.swap rT1 rT2 []
  · norm_num [List.pairwise_cons, rT1, rT2]

/-- The same swap in the other direction, admissible on `[rT2, rT1]`. -/
theorem admissible_swap_pair_rev :
    IdentifyAdmissible [rT2, rT1] 0 100 0 [rT1, rT2] := by
  have hf : List.filter (passes 0 100 0) [rT2, rT1] = [rT2, rT1] := by decide
  constructor
  · rw [hf]
    exact List.Perm.swap rT2 rT1 []
  · norm_num [List.pairwise_cons, rT1, rT2]

/-- C1: the Metric Deriver sets `zero_click_score` of every derived record
to `(impressions - clicks) / impressions * 100` when `impressions > 0` and
to exactly `0` when `impressions = 0`; in particular the record with 1000
impressions and 10 clicks scores `99`, and the one with 0 impressions and
0 clicks scores `0`. -/
theorem calc_sets_score_by_formula :
    (∀ (df : List KeywordRecord) (r : ScoredRecord),
        r ∈ calculate_zero_click_metrics df →
        r.zero_click_score =
          if 0 < r.impressions then
            ((r.impressions : ℚ) - (r.clicks : ℚ)) / (r.impressions : ℚ) * 100
          else 0) ∧
      (calculate_zero_click_metrics [rScenA]).map
          (fun r => r.zero_click_score) = [99] ∧
      (calculate_zero_click_metrics [rScenB]).map
          (fun r => r.zero_click_score) = [0] := by
  refine ⟨?_, ?_, ?_⟩
  · intro df r hr
    cases df with
    | nil => simp [calculate_zero_click_metrics] at hr
    | cons a l =>
      simp only [calculate_zero_click_metrics, List.isEmpty_cons,
        Bool.false_eq_true, if_false, List.mem_map] at hr
      obtain ⟨x, _, rfl⟩ := hr
      simp [scoreRecord, zeroClickScore]
  · norm_num [calculate_zero_click_metrics, rScenA, scoreRecord, zeroClickScore]
  · norm_num [calculate_zero_click_metrics, rScenB, scoreRecord, zeroClickScore]

/-- Witness for C1 at the Scenario A record. -/
theorem calc_sets_score_by_formula_witness :
    (scoreRecord rScenA).zero_click_score =
      if 0 < (scoreRecord rScenA).impressions then
        (((scoreRecord rScenA).impressions : ℚ) -
            ((scoreRecord rScenA).clicks : ℚ)) /
          ((scoreRecord rScenA).impressions : ℚ) * 100
      else 0 :=
  calc_sets_score_by_formula.1 [rScenA] (scoreRecord rScenA)
    (by simp [calculate_zero_click_metrics])

/-- C2: the Keyword Filter retains a record iff it is in the input and
`impressions ≥ min_impressions`, `ctr ≤ max_ctr` and
`zero_click_score ≥ min_zero_click_score` all hold. -/
theorem identify_retains_iff (df : List ScoredRecord) (mi : ℤ) (mc ms : ℚ)
    (r : ScoredRecord) :
    r ∈ identify_zero_click_keywords df mi mc ms ↔
      r ∈ df ∧ mi ≤ r.impressions ∧ r.ctr ≤ mc ∧ ms ≤ r.zero_click_score :=
  mem_identify df mi mc ms r

/-- C3 counterexample: the tie-stability half of the claim fails on the
code — `sort_values` with the pandas default `kind='quicksort'` fixes no
tie order, and on the input `[rT1, rT2]`, two distinct retained records
with identical `zero_click_score`, the tie-reversed output `[rT2, rT1]`
is an admissible run of the filter. -/
theorem identify_tie_order_cex :
    IdentifyAdmissible [rT1, rT2] 0 100 0 [rT2, rT1] ∧
      rT1.zero_click_score = rT2.zero_click_score ∧
      ([rT2, rT1] : List ScoredRecord) ≠ [rT1, rT2] :=
  ⟨admissible_swap_pair, rfl, by decide⟩

/-- C3 (amended): every admissible run of the Keyword Filter returns the
retained records sorted non-increasing in `zero_click_score` — a record is
in the output iff it is in the input and meets all three thresholds, with
multiplicity preserved — but the relative order of records with equal
score is not guaranteed. -/
theorem identify_sorted_desc_content (df : List ScoredRecord) (mi : ℤ)
    (mc ms : ℚ) (out : List ScoredRecord)
    (h : IdentifyAdmissible df mi mc ms out) :
    out.Pairwise (fun a b => b.zero_click_score ≤ a.zero_click_score) ∧
      out.Perm (df.filter (passes mi mc ms)) ∧
      ∀ r : ScoredRecord, r ∈ out ↔
        r ∈ df ∧ mi ≤ r.impressions ∧ r.ctr ≤ mc ∧ ms ≤ r.zero_click_score := by
  refine ⟨h.2, h.1, ?_⟩
  intro r
  rw [h.1.mem_iff, List.mem_filter]
  simp [passes, and_assoc]

/-- Witness for C3 (amended) at the tie-reversed admissible run. -/
theorem identify_sorted_desc_content_witness :
    ([rT2, rT1] : List ScoredRecord).Pairwise
        (fun a b => b.zero_click_score ≤ a.zero_click_score) ∧
      ([rT2, rT1] : List ScoredRecord).Perm
        (List.filter (passes 0 100 0) [rT1, rT2]) ∧
      ∀ r : ScoredRecord, r ∈ ([rT2, rT1] : List ScoredRecord) ↔
        r ∈ ([rT1, rT2] : List ScoredRecord) ∧ (0 : ℤ) ≤ r.impressions ∧
          r.ctr ≤ (100 : ℚ) ∧ (0 : ℚ) ≤ r.zero_click_score :=
  identify_sorted_desc_content [rT1, rT2] 0 100 0 [rT2, rT1]
    admissible_swap_pair

/-- C4 counterexample: exact-order idempotence fails on the code — a run
of the filter on `[rT1, rT2]` may return `[rT2, rT1]`, and re-filtering
that output with the same thresholds may return `[rT1, rT2]`, a different
list, because the unstable sort may permute the tied records again. -/
theorem identify_exact_idempotence_cex :
    IdentifyAdmissible [rT1, rT2] 0 100 0 [rT2, rT1] ∧
      IdentifyAdmissible [rT2, rT1] 0 100 0 [rT1, rT2] ∧
      ([rT1, rT2] : List ScoredRecord) ≠ [rT2, rT1] :=
  ⟨admissible_swap_pair, admissible_swap_pair_rev, by decide⟩

/-- C4 (amended): re-filtering an already-filtered set with the same
thresholds retains every record — the threshold mask passes all of them —
and returns a permutation of that set, still sorted non-increasing; the
order is unchanged except possibly among records with equal
`zero_click_score`, whose order the unstable sort does not fix. -/
theorem identify_refilter_upto_ties (df : List ScoredRecord) (mi : ℤ)
    (mc ms : ℚ) (o1 o2 : List ScoredRecord)
    (h1 : IdentifyAdmissible df mi mc ms o1)
    (h2 : IdentifyAdmissible o1 mi mc ms o2) :
    o1.filter (passes mi mc ms) = o1 ∧ o2.Perm o1 ∧
      o2.Pairwise (fun a b => b.zero_click_score ≤ a.zero_click_score) := by
  have hfl : o1.filter (passes mi mc ms) = o1 := by
    apply List.filter_eq_self.mpr
    intro a ha
    exact (List.mem_filter.mp (h1.1.mem_iff.mp ha)).2
  have hperm : o2.Perm o1 := by
    have := h2.1
    rwa [hfl] at this
  exact ⟨hfl, hperm, h2.2⟩

/-- Witness for C4 (amended) across the two tie-reversing runs. -/
theorem identify_refilter_upto_ties_witness :
    ([rT2, rT1] : List ScoredRecord).filter (passes 0 100 0) = [rT2, rT1] ∧
      ([rT1, rT2] : List ScoredRecord).Perm [rT2, rT1] ∧
      ([rT1, rT2] : List ScoredRecord).Pairwise
        (fun a b => b.zero_click_score ≤ a.zero_click_score) :=
  identify_refilter_upto_ties [rT1, rT2] 0 100 0 [rT2, rT1] [rT1, rT2]
    admissible_swap_pair admissible_swap_pair_rev

/-- C5: whenever `impressions ≥ clicks ≥ 0` the derived score lies in
`[0, 100]`, and it is exactly `0` whenever `impressions = 0`, whatever the
clicks count. -/
theorem score_in_range (r : KeywordRecord) :
    (r.clicks ≤ r.impressions → 0 ≤ r.clicks →
        0 ≤ (scoreRecord r).zero_click_score ∧
          (scoreRecord r).zero_click_score ≤ 100) ∧
      (r.impressions = 0 → (scoreRecord r).zero_click_score = 0) := by
  constructor
  · intro hci hc
    simp only [scoreRecord, zeroClickScore]
    by_cases hi : 0 < r.impressions
    · rw [if_pos hi]
      have hiQ : (0 : ℚ) < (r.impressions : ℚ) := by exact_mod_cast hi
      have hciQ : (r.clicks : ℚ) ≤ (r.impressions : ℚ) := by exact_mod_cast hci
      have hcQ : (0 : ℚ) ≤ (r.clicks : ℚ) := by exact_mod_cast hc
      constructor
      · have h1 : (0 : ℚ) ≤ ((r.impressions : ℚ) - (r.clicks : ℚ)) /
            (r.impressions : ℚ) :=
          div_nonneg (by linarith) (le_of_lt hiQ)
        linarith
      · have h2 : ((r.impressions : ℚ) - (r.clicks : ℚ)) /
            (r.impressions : ℚ) ≤ 1 :=
          (div_le_one hiQ).mpr (by linarith)
        linarith
    · rw [if_neg hi]
      norm_num
  · intro h0
    simp [scoreRecord, zeroClickScore, h0]

/-- Witness for C5 at the Scenario A and Scenario B records. -/
theorem score_in_range_witness :
    (0 ≤ (scoreRecord rScenA).zero_click_score ∧
        (scoreRecord rScenA).zero_click_score ≤ 100) ∧
      (scoreRecord rScenB).zero_click_score = 0 :=
  ⟨(score_in_range rScenA).1 (by decide) (by decide),
   (score_in_range rScenB).2 rfl⟩

/-- C6: a raw response with no rows yields an empty record set, and the
empty set flows through deriver, filter and shaper producing empty or
absent outputs, never a failure. -/
theorem empty_response_pipeline (dims : List String) (mi : ℤ) (mc ms : ℚ) :
    fetch_gsc_data dims none = [] ∧
      calculate_zero_click_metrics (fetch_gsc_data dims none) = [] ∧
      identify_zero_click_keywords
          (calculate_zero_click_metrics (fetch_gsc_data dims none))
          mi mc ms = [] ∧
      create_visualizations
          (calculate_zero_click_metrics (fetch_gsc_data dims none))
          (identify_zero_click_keywords
            (calculate_zero_click_metrics (fetch_gsc_data dims none))
            mi mc ms) =
        (none, none, none) :=
  ⟨rfl, rfl, rfl, rfl⟩

/-- C7: on the filtered set produced by the Keyword Filter, the top-N view
is exactly the first `min 20 (length)` records of that set in order, and it
is `none` (absent) when the filtered set is empty. -/
theorem topn_view_take20 (df : List ScoredRecord) (mi : ℤ) (mc ms : ℚ)
    (zc : List ScoredRecord)
    (hzc : zc = identify_zero_click_keywords df mi mc ms) :
    (zc ≠ [] →
        (create_visualizations df zc).2.2 = some (zc.take 20) ∧
          (zc.take 20).length = min 20 zc.length) ∧
      (zc = [] → (create_visualizations df zc).2.2 = none) := by
  constructor
  · intro hne
    have hdf : df ≠ [] := by
      intro h
      subst h
      simp [identify_zero_click_keywords] at hzc
      exact hne hzc
    have hdfE : df.isEmpty = false := by
      rw [Bool.eq_false_iff]
      intro h
      exact hdf (List.isEmpty_iff.mp h)
    have hzcE : zc.isEmpty = false := by
      rw [Bool.eq_false_iff]
      intro h
      exact hne (List.isEmpty_iff.mp h)
    constructor
    · simp [create_visualizations, hdfE, hzcE]
    · simp [List.length_take]
  · intro he
    by_cases hdfE : df.isEmpty
    · simp [create_visualizations, hdfE]
    · simp [create_visualizations, hdfE, he]

/-- Witness for C7 on a one-record filtered set. -/
theorem topn_view_take20_witness :
    (create_visualizations [rPos]
          (identify_zero_click_keywords [rPos] 0 100 0)).2.2 =
        some ((identify_zero_click_keywords [rPos] 0 100 0).take 20) ∧
      ((identify_zero_click_keywords [rPos] 0 100 0).take 20).length =
        min 20 (identify_zero_click_keywords [rPos] 0 100 0).length := by
  have hne : identify_zero_click_keywords [rPos] 0 100 0 ≠ [] := by
    have hf : List.filter (passes 0 100 0) [rPos] = [rPos] := by decide
    rw [identify_eq, hf, List.mergeSort_singleton]
    exact List.cons_ne_nil _ _
  exact (topn_view_take20 [rPos] 0 100 0
    (identify_zero_click_keywords [rPos] 0 100 0) rfl).1 hne

/-- C8: the Row Normalizer rescales `ctr` from fraction to percentage and
sets `query` to the single key when exactly the one dimension `query` was
requested, and to the whole keys sequence otherwise. -/
theorem normalize_row_query_ctr (dims : List String) (row : GscRow) :
    (normalizeRow dims row).ctr = row.ctr * 100 ∧
      (∀ (q : String) (ks : List String), dims = ["query"] →
        row.keys = q :: ks →
        (normalizeRow dims row).query = QueryField.single q) ∧
      (dims ≠ ["query"] →
        (normalizeRow dims row).query = QueryField.multi row.keys) := by
  refine ⟨rfl, ?_, ?_⟩
  · intro q ks hd hk
    simp [normalizeRow, hd, hk]
  · intro hd
    simp [normalizeRow, hd]

/-- Witness for C8 at a one-dimension row. -/
theorem normalize_row_query_ctr_witness :
    (normalizeRow ["query"] rowQ).ctr = rowQ.ctr * 100 ∧
      (normalizeRow ["query"] rowQ).query = QueryField.single "pizza" :=
  ⟨(normalize_row_query_ctr ["query"] rowQ).1,
   (normalize_row_query_ctr ["query"] rowQ).2.1 "pizza" [] rfl rfl⟩

/-- C9: the Keyword Filter leaves its input untouched — after the call the
caller's frame still holds the original records in the original order, and
the returned frame is the filtered, sorted result. -/
theorem identify_preserves_input (df : List ScoredRecord) (mi : ℤ)
    (mc ms : ℚ) :
    (identify_zero_click_keywords_effect df mi mc ms).2 = df ∧
      (identify_zero_click_keywords_effect df mi mc ms).1 =
        identify_zero_click_keywords df mi mc ms := by
  cases df with
  | nil => exact ⟨rfl, rfl⟩
  | cons a l => exact ⟨rfl, rfl⟩

/-- C10: with `impressions > 0` and `clicks > impressions` the derived
score is strictly negative, and such a record is never retained by the
Keyword Filter once `min_zero_click_score ≥ 0`. -/
theorem overclick_negative_excluded (c i : ℤ) (hi : 0 < i) (hc : i < c) :
    zeroClickScore c i < 0 ∧
      ∀ (df : List ScoredRecord) (mi : ℤ) (mc ms : ℚ), 0 ≤ ms →
        ∀ r : ScoredRecord, r.zero_click_score = zeroClickScore c i →
          r ∉ identify_zero_click_keywords df mi mc ms := by
  have hiQ : (0 : ℚ) < (i : ℚ) := by exact_mod_cast hi
  have hcQ : (i : ℚ) < (c : ℚ) := by exact_mod_cast hc
  have hneg : zeroClickScore c i < 0 := by
    simp only [zeroClickScore]
    rw [if_pos hi]
    have h1 : ((i : ℚ) - (c : ℚ)) / (i : ℚ) < 0 :=
      div_neg_of_neg_of_pos (by linarith) hiQ
    linarith
  refine ⟨hneg, ?_⟩
  intro df mi mc ms hms r hr hmem
  have h := (mem_identify df mi mc ms r).mp hmem
  have hle : ms ≤ r.zero_click_score := h.2.2.2
  rw [hr] at hle
  linarith

/-- Witness for C10 at 2 clicks over 1 impression. -/
theorem overclick_negative_excluded_witness :
    zeroClickScore 2 1 < 0 ∧
      rNeg ∉ identify_zero_click_keywords [rNeg] 0 300 0 := by
  have h := overclick_negative_excluded 2 1 (by decide) (by decide)
  exact ⟨h.1, h.2 [rNeg] 0 300 0 (by norm_num) rNeg
    (by norm_num [rNeg, zeroClickScore])⟩

end ZeroClick
